import Mathlib

/-!
Verification development for the `sih` repository: two near-duplicate
Streamlit dashboards (`src/SIH/gglmfao.py` and `src/testing.py`) that build a
lazy Google Earth Engine expression pipeline for SAR change detection and
render the results as folium tile overlays.

The Earth Engine client is lazy: every call (`filter`, `median`,
`reduceNeighborhood`, ...) builds an expression node rather than computing
pixels.  We therefore embed the pipeline as an expression AST
(`EECollection`, `EEImage`, ...) and translate each Python function into a
Lean function that builds the corresponding tree.  Python floats in this
repository are all short decimal literals, embedded as exact rationals.
Failure of the remote client inside a `try` block is modelled by an
explicit `Option String` parameter (the exception message, if one is
raised); `None`-propagation and the callers' truthiness guards are
modelled with `Option`.
-/

/-- Python exception values that the scripts can raise uncaught. -/
inductive PyError where
  | valueError (msg : String)
  | nameError (missing : String)
  | attributeError (missing : String)
deriving DecidableEq

/-- Observable side effects of the error paths: a Streamlit user-facing
error box (`st.error`) or a console print (`print`). -/
inductive Effect where
  | stError (msg : String)
  | consolePrint (msg : String)
deriving DecidableEq

/-- Earth Engine metadata filters used by the scripts
(`ee.Filter.eq`, `ee.Filter.listContains`). -/
inductive EEFilterExpr where
  | eq (property value : String)
  | listContains (property value : String)
deriving DecidableEq

/-- Earth Engine geometries: `ee.Geometry.Point([lon, lat])` and
`point.buffer(distance_in_meters)`. -/
inductive EEGeometry where
  | point (coords : List ℚ)
  | buffer (base : EEGeometry) (distance : ℚ)
deriving DecidableEq

/-- Neighborhood reducers used by the Lee filter (`ee.Reducer.mean()`,
`ee.Reducer.variance()`). -/
inductive EEReducer where
  | mean
  | variance
deriving DecidableEq

/-- Convolution / neighborhood kernels (`ee.Kernel.square(radius)`). -/
inductive EEKernel where
  | square (radius : ℚ)
deriving DecidableEq

/-- Earth Engine image-collection expressions built by the scripts. -/
inductive EECollection where
  | imageCollection (id : String)
  | filter (c : EECollection) (f : EEFilterExpr)
  | filterBounds (c : EECollection) (geom : EEGeometry)
  | filterDate (c : EECollection) (start stop : String)
deriving DecidableEq

/-- Earth Engine image expressions built by the scripts.  `addNumber` and
`gt` take a plain number argument, mirroring `image.add(1e-6)` and
`diff.gt(0.1)` in the source. -/
inductive EEImage where
  | constant (value : ℚ)
  | median (c : EECollection)
  | reduceNeighborhood (i : EEImage) (r : EEReducer) (k : EEKernel)
  | add (a b : EEImage)
  | addNumber (a : EEImage) (value : ℚ)
  | subtract (a b : EEImage)
  | multiply (a b : EEImage)
  | divide (a b : EEImage)
  | abs (a : EEImage)
  | convolve (a : EEImage) (k : EEKernel)
  | clip (a : EEImage) (geom : EEGeometry)
  | updateMask (a : EEImage) (mask : EEImage)
  | gt (a : EEImage) (threshold : ℚ)
deriving DecidableEq

/-- The distance argument of a buffered geometry, in meters. -/
def bufferDistance : EEGeometry → Option ℚ
  | .buffer _ d => some d
  | _ => none

/-- The catalog id at the root of a collection expression. -/
def EECollection.baseId : EECollection → String
  | .imageCollection i => i
  | .filter c _ => c.baseId
  | .filterBounds c _ => c.baseId
  | .filterDate c _ _ => c.baseId

/-- All date filters applied along a collection expression, outermost last. -/
def EECollection.dateFilters : EECollection → List (String × String)
  | .imageCollection _ => []
  | .filter c _ => c.dateFilters
  | .filterBounds c _ => c.dateFilters
  | .filterDate c s e => c.dateFilters ++ [(s, e)]

/-- A collection query issued to the remote catalog: which collection is
read and for which date range. -/
structure QuerySpec where
  collectionId : String
  start : String
  stop : String
deriving DecidableEq

/-- The queries described by one collection expression: its catalog id
paired with each date filter applied to it. -/
def EECollection.querySpecs (c : EECollection) : List QuerySpec :=
  c.dateFilters.map (fun p => ⟨c.baseId, p.1, p.2⟩)

/-- Boolean membership test for query specs. -/
def memQuery (q : QuerySpec) : List QuerySpec → Bool
  | [] => false
  | a :: rest => if q = a then true else memQuery q rest

/-- Append a query spec unless it is already recorded. -/
def insertQuery (acc : List QuerySpec) (q : QuerySpec) : List QuerySpec :=
  if memQuery q acc then acc else acc ++ [q]

/-- Collect the distinct collection queries referenced by an image
expression, in order of first appearance.  The Python scripts build each
collection object once and share it by reference inside the expression
tree, so deduplication recovers the number of queries actually issued. -/
def EEImage.collectQueries : EEImage → List QuerySpec → List QuerySpec
  | .constant _, acc => acc
  | .median c, acc => c.querySpecs.foldl insertQuery acc
  | .reduceNeighborhood i _ _, acc => i.collectQueries acc
  | .add a b, acc => b.collectQueries (a.collectQueries acc)
  | .addNumber a _, acc => a.collectQueries acc
  | .subtract a b, acc => b.collectQueries (a.collectQueries acc)
  | .multiply a b, acc => b.collectQueries (a.collectQueries acc)
  | .divide a b, acc => b.collectQueries (a.collectQueries acc)
  | .abs a, acc => a.collectQueries acc
  | .convolve a _, acc => a.collectQueries acc
  | .clip a _, acc => a.collectQueries acc
  | .updateMask a m, acc => m.collectQueries (a.collectQueries acc)
  | .gt a _, acc => a.collectQueries acc

/-- The distinct collection queries issued while building the 4-tuple
returned by `process_images`, in the order the script creates them. -/
def pipelineQueries (t : EEImage × EEImage × EEImage × EEImage) : List QuerySpec :=
  t.2.2.2.collectQueries (t.2.2.1.collectQueries (t.2.1.collectQueries (t.1.collectQueries [])))

/-- A folium `TileLayer` added to the result map: the image whose
`getMapId` tile URL is embedded, the visualization stretch passed to
`getMapId`, and the layer attributes from the source. -/
structure TileLayer where
  tilesOf : EEImage
  visMin : ℚ
  visMax : ℚ
  attribution : String
  overlay : Bool
  layerName : String
deriving DecidableEq

/-- A folium `GeoJson` vector layer: the geometry rendered as an outline. -/
structure GeoJsonLayer where
  feature : EEGeometry
deriving DecidableEq

/-- The folium map built for a successful submission: its center, zoom,
tile overlays and vector layers, in the order they are added. -/
structure RenderedMap where
  location : ℚ × ℚ
  zoom_start : Nat
  tileLayers : List TileLayer
  geoJsonLayers : List GeoJsonLayer
deriving DecidableEq

/-! ### Python string semantics

`lat_lon.split(",")` and `float(token)` from the form handler, modelled
over `List Char`.  The float model covers the decimal forms relevant here
(optional sign, digits, optional fractional part, surrounding whitespace);
it rejects anything else, as `float` does for non-numeric text. -/

/-- Python `s.split(",")`: split at every comma, keeping empty pieces. -/
def splitOnComma : List Char → List (List Char)
  | [] => [[]]
  | c :: rest =>
    let r := splitOnComma rest
    if c = ',' then [] :: r
    else
      match r with
      | [] => [[c]]
      | g :: gs => (c :: g) :: gs

/-- Strip leading and trailing whitespace, as `float` does before parsing. -/
def pyStrip (cs : List Char) : List Char :=
  ((cs.dropWhile Char.isWhitespace).reverse.dropWhile Char.isWhitespace).reverse

/-- Read a digit string as a natural number; `none` on a non-digit. -/
def digitsToNat : List Char → Option Nat
  | [] => some 0
  | c :: rest =>
    if c.isDigit then (digitsToNat rest).map (fun n => (c.toNat - 48) * 10 ^ rest.length + n)
    else none

/-- Split at the first decimal point, if any. -/
def splitDot : List Char → List Char × Option (List Char)
  | [] => ([], none)
  | c :: rest =>
    if c = '.' then ([], some rest)
    else
      let p := splitDot rest
      (c :: p.1, p.2)

/-- Parse an unsigned decimal numeral (integer part, optional fractional
part, at least one digit overall) as an exact rational. -/
def pyFloatCore (cs : List Char) : Option ℚ :=
  match splitDot cs with
  | (ip, none) =>
    if ip.isEmpty then none
    else (digitsToNat ip).map (fun n => (n : ℚ))
  | (ip, some fp) =>
    if fp.contains '.' then none
    else if ip.isEmpty && fp.isEmpty then none
    else
      match digitsToNat ip, digitsToNat fp with
      | some n, some f => some ((n : ℚ) + (f : ℚ) / (10 : ℚ) ^ fp.length)
      | _, _ => none

/-- Python `float(token)` on one comma-separated token. -/
def pyFloatChars (cs : List Char) : Option ℚ :=
  match pyStrip cs with
  | '-' :: rest => (pyFloatCore rest).map (fun q => -q)
  | '+' :: rest => pyFloatCore rest
  | stripped => pyFloatCore stripped

/-- The form handler's parse
`center_lat, center_lon = map(float, lat_lon.split(","))`
(gglmfao.py line 120): two comma-separated tokens, each converted with
`float`; any other shape raises an uncaught `ValueError`. -/
def parseCoords (s : String) : Except PyError (ℚ × ℚ) :=
  match splitOnComma s.data with
  | [t1, t2] =>
    match pyFloatChars t1, pyFloatChars t2 with
    | some x, some y => .ok (x, y)
    | _, _ => .error (.valueError "could not convert string to float")
  | _ => .error (.valueError "unpacking requires exactly two values")

/-- Render-related attributes of the folium `Map` widget, as used by the
repository: gglmfao.py line 105 successfully calls `_repr_html_()`;
`repr_html` is not an attribute of the widget, so looking it up raises
`AttributeError`. -/
def foliumMapRenderAttrs : List String := ["_repr_html_"]

namespace Gglmfao

/-- gglmfao.py lines 42-45: point geometry buffered by `radius_km * 1000`
meters. -/
def get_buffered_aoi (center_lon center_lat radius_km : ℚ) : EEGeometry :=
  .buffer (.point [center_lon, center_lat]) (radius_km * 1000)

/-- gglmfao.py lines 47-53: mean/variance Lee filter over a radius-1
square kernel; `1e-6` is the division guard from line 51. -/
def enhanced_lee_filter (image : EEImage) : EEImage :=
  let weights : EEKernel := .square 1
  let mean : EEImage := .reduceNeighborhood image .mean weights
  let variance : EEImage := .reduceNeighborhood image .variance weights
  let b : EEImage := .divide variance (.addNumber variance (1 / 1000000))
  .add mean (.multiply b (.subtract image mean))

/-- gglmfao.py lines 55-57: convolution with a radius-1 square kernel. -/
def boxcar_filter (image : EEImage) : EEImage :=
  .convolve image (.square 1)

/-- gglmfao.py lines 59-62: filter the collection to the date range and
take the median composite. -/
def temporal_median (collection : EECollection) (start_date end_date : String) : EEImage :=
  .median (.filterDate collection start_date end_date)

/-- gglmfao.py lines 64-69: the S1_GRD collection filtered by instrument
mode, polarization and AOI bounds, then reduced by `temporal_median`. -/
def load_image_collection (aoi : EEGeometry) (start_date end_date : String) : EEImage :=
  temporal_median
    (.filterBounds
      (.filter
        (.filter (.imageCollection "COPERNICUS/S1_GRD") (.eq "instrumentMode" "IW"))
        (.listContains "transmitterReceiverPolarisation" "VV"))
      aoi)
    start_date end_date

/-- gglmfao.py lines 73-88: the body of the `try` block of
`process_images` (the success path); `0.1` is written `1 / 10`. -/
def process_images_body (aoi : EEGeometry) (start1 end1 start2 end2 : String) :
    EEImage × EEImage × EEImage × EEImage :=
  let image1 := load_image_collection aoi start1 end1
  let image2 := load_image_collection aoi start2 end2
  let image1_filtered := enhanced_lee_filter image1
  let image2_filtered := enhanced_lee_filter image2
  let image1_boxcar := boxcar_filter image1_filtered
  let image2_boxcar := boxcar_filter image2_filtered
  let mask : EEImage := .clip (.constant 1) aoi
  let image1_boxcar := .updateMask image1_boxcar mask
  let image2_boxcar := .updateMask image2_boxcar mask
  let diff : EEImage := .abs (.subtract image2_boxcar image1_boxcar)
  let changes : EEImage := .gt diff (1 / 10)
  (image1_boxcar, image2_boxcar, diff, changes)

/-- gglmfao.py lines 71-92: `process_images` with its `try`/`except`.
`remoteExc` is the exception message if the Earth Engine client raises
inside the `try` block; the handler shows `st.error` and returns the
all-`None` 4-tuple. -/
def process_images (remoteExc : Option String) (aoi : EEGeometry)
    (start1 end1 start2 end2 : String) :
    List Effect × (Option EEImage × Option EEImage × Option EEImage × Option EEImage) :=
  match remoteExc with
  | none =>
    let r := process_images_body aoi start1 end1 start2 end2
    ([], (some r.1, some r.2.1, some r.2.2.1, some r.2.2.2))
  | some e => ([.stError ("Error processing images: " ++ e)], (none, none, none, none))

/-- gglmfao.py lines 124-155: the caller's truthiness guard
`if image1_boxcar and image2_boxcar and diff:` followed by the
construction of the result map (three tile overlays, then the GeoJSON
outline of the AOI).  `changes` is unpacked by the caller but never used,
so it is an unused argument here as well. -/
def render_results (center_lat center_lon : ℚ) (aoi : EEGeometry)
    (image1_boxcar image2_boxcar diff changes : Option EEImage) : Option RenderedMap :=
  match image1_boxcar, image2_boxcar, diff with
  | some i1, some i2, some d =>
    some
      ⟨(center_lat, center_lon), 10,
       [⟨i1, -25, 0, "Map data © Google", true, "Image 1 (Filtered & Boxcar)"⟩,
        ⟨i2, -25, 0, "Map data © Google", true, "Image 2 (Filtered & Boxcar)"⟩,
        ⟨d, 0, 10, "Map data © Google", true, "Difference Image"⟩],
       [⟨aoi⟩]⟩
  | _, _, _ => none

/-- gglmfao.py lines 118-158: the submitted-form branch.  An empty
coordinate string fails the `if lat_lon:` truthiness test and nothing
happens; a malformed string raises an uncaught exception from the parse
(outside the `process_images` handler); otherwise the AOI is built,
images are processed and the result map is rendered when the guard
passes. -/
def handleSubmit (remoteExc : Option String) (radius_km : ℚ) (lat_lon : String)
    (start1 end1 start2 end2 : String) : Except PyError (List Effect × Option RenderedMap) :=
  if lat_lon = "" then .ok ([], none)
  else
    match parseCoords lat_lon with
    | .error e => .error e
    | .ok (center_lat, center_lon) =>
      let aoi := get_buffered_aoi center_lon center_lat radius_km
      let r := process_images remoteExc aoi start1 end1 start2 end2
      .ok (r.1, render_results center_lat center_lon aoi r.2.1 r.2.2.1 r.2.2.2.1 r.2.2.2.2)

end Gglmfao

namespace Testing

/-- testing.py lines 10-15: same point-and-buffer construction. -/
def get_buffered_aoi (center_lon center_lat radius_km : ℚ) : EEGeometry :=
  .buffer (.point [center_lon, center_lat]) (radius_km * 1000)

/-- testing.py lines 17-37: the Lee filter, written with an intermediate
`overall_variance` binding but building the same expression. -/
def enhanced_lee_filter (image : EEImage) : EEImage :=
  let weights : EEKernel := .square 1
  let mean : EEImage := .reduceNeighborhood image .mean weights
  let variance : EEImage := .reduceNeighborhood image .variance weights
  let overall_variance : EEImage := .addNumber variance (1 / 1000000)
  let b : EEImage := .divide variance overall_variance
  .add mean (.multiply b (.subtract image mean))

/-- testing.py lines 39-41. -/
def boxcar_filter (image : EEImage) : EEImage :=
  .convolve image (.square 1)

/-- testing.py lines 43-46. -/
def temporal_median (collection : EECollection) (start_date end_date : String) : EEImage :=
  .median (.filterDate collection start_date end_date)

/-- testing.py lines 48-54. -/
def load_image_collection (aoi : EEGeometry) (start_date end_date : String) : EEImage :=
  temporal_median
    (.filterBounds
      (.filter
        (.filter (.imageCollection "COPERNICUS/S1_GRD") (.eq "instrumentMode" "IW"))
        (.listContains "transmitterReceiverPolarisation" "VV"))
      aoi)
    start_date end_date

/-- testing.py lines 58-80: the body of the `try` block; the two date
ranges are the fixed literals of lines 59-60. -/
def process_images_body (aoi : EEGeometry) : EEImage × EEImage × EEImage × EEImage :=
  let image1 := load_image_collection aoi "2023-01-01" "2023-01-15"
  let image2 := load_image_collection aoi "2023-07-01" "2023-07-15"
  let image1_filtered := enhanced_lee_filter image1
  let image2_filtered := enhanced_lee_filter image2
  let image1_boxcar := boxcar_filter image1_filtered
  let image2_boxcar := boxcar_filter image2_filtered
  let mask : EEImage := .clip (.constant 1) aoi
  let image1_boxcar := .updateMask image1_boxcar mask
  let image2_boxcar := .updateMask image2_boxcar mask
  let diff : EEImage := .abs (.subtract image2_boxcar image1_boxcar)
  let changes : EEImage := .gt diff (1 / 10)
  (image1_boxcar, image2_boxcar, diff, changes)

/-- testing.py lines 56-84: `process_images` with its `try`/`except`; the
handler only prints to the console before returning the all-`None`
4-tuple. -/
def process_images (remoteExc : Option String) (aoi : EEGeometry) :
    List Effect × (Option EEImage × Option EEImage × Option EEImage × Option EEImage) :=
  match remoteExc with
  | none =>
    let r := process_images_body aoi
    ([], (some r.1, some r.2.1, some r.2.2.1, some r.2.2.2))
  | some e => ([.consolePrint ("Error processing images: " ++ e)], (none, none, none, none))

/-- testing.py lines 121-159: the truthiness guard and the construction
of the updated map (three named tile overlays plus the GeoJSON outline);
`changes` is unpacked but never used. -/
def build_updated_map (center_lat center_lon : ℚ) (aoi : EEGeometry)
    (image1_boxcar image2_boxcar diff changes : Option EEImage) : Option RenderedMap :=
  match image1_boxcar, image2_boxcar, diff with
  | some i1, some i2, some d =>
    some
      ⟨(center_lat, center_lon), 10,
       [⟨i1, -25, 0, "Map data © Google", true, "Sentinel-1 Image 1 (Filtered & Boxcar)"⟩,
        ⟨i2, -25, 0, "Map data © Google", true, "Sentinel-1 Image 2 (Filtered & Boxcar)"⟩,
        ⟨d, 0, 10, "Map data © Google", true, "Difference Image"⟩],
       [⟨aoi⟩]⟩
  | _, _, _ => none

/-- testing.py lines 86-165: `main`.  Line 100 calls
`folium_map.repr_html()` before the form is shown; the folium map widget
has no `repr_html` attribute (only `_repr_html_`), so the lookup raises
`AttributeError` there, and again at line 162 if reached.  The submitted
branch uses the fixed demo coordinates (20.0, 77.0) of lines 112-113. -/
def main (remoteExc : Option String) (radius_km : ℚ) (submitted : Bool) :
    Except PyError (List Effect × Option RenderedMap) :=
  if "repr_html" ∈ foliumMapRenderAttrs then
    if submitted then
      let center_lat : ℚ := 20
      let center_lon : ℚ := 77
      let aoi := get_buffered_aoi center_lon center_lat radius_km
      let r := process_images remoteExc aoi
      match build_updated_map center_lat center_lon aoi r.2.1 r.2.2.1 r.2.2.2.1 r.2.2.2.2 with
      | some m =>
        if "repr_html" ∈ foliumMapRenderAttrs then .ok (r.1, some m)
        else .error (.attributeError "repr_html")
      | none => .ok (r.1, none)
    else .ok ([], none)
  else .error (.attributeError "repr_html")

/-- Global names defined at module level in testing.py (imports, the five
functions, `main`) together with the interpreter-provided `__name__`.
The guard on line 167 reads `_name_`, which is never assigned. -/
def moduleGlobals : List String :=
  ["st", "folium", "ee", "html", "get_buffered_aoi", "enhanced_lee_filter",
   "boxcar_filter", "temporal_median", "load_image_collection",
   "process_images", "main", "__name__"]

/-- testing.py lines 167-168: executing the script runs the module body
and then evaluates `if _name_ == "_main_":`.  Resolving `_name_` against
the module's global (and builtin) names fails, raising `NameError`
before any comparison or call to `main`. -/
def runScript (remoteExc : Option String) (radius_km : ℚ) (submitted : Bool) :
    Except PyError (List Effect × Option RenderedMap) :=
  if "_name_" ∈ moduleGlobals then main remoteExc radius_km submitted
  else .error (.nameError "_name_")

end Testing

/-! ### Claims -/

/-- C1: for every AOI and date-range pair, gglmfao.py's `process_images`
builds the pipeline in this exact order: the COPERNICUS/S1_GRD collection
filtered by instrumentMode IW, VV polarization and the AOI bounds; a
temporal median per date range; the mean/variance Lee filter with a
radius-1 (3x3) square kernel; a radius-1 (3x3) boxcar convolution;
masking of both composites via a constant-1 image clipped to the AOI; the
absolute pixel-wise difference; and a binary change mask thresholded at
the constant 0.1. -/
theorem gglmfao_pipeline_exact_structure (aoi : EEGeometry) (start1 end1 start2 end2 : String) :
    Gglmfao.process_images none aoi start1 end1 start2 end2 =
      (let filteredCol : String → String → EECollection := fun s e =>
        .filterDate
          (.filterBounds
            (.filter
              (.filter (.imageCollection "COPERNICUS/S1_GRD") (.eq "instrumentMode" "IW"))
              (.listContains "transmitterReceiverPolarisation" "VV"))
            aoi) s e
      let composite : String → String → EEImage := fun s e =>
        let base : EEImage := .median (filteredCol s e)
        let mean : EEImage := .reduceNeighborhood base .mean (.square 1)
        let variance : EEImage := .reduceNeighborhood base .variance (.square 1)
        let lee : EEImage :=
          .add mean
            (.multiply (.divide variance (.addNumber variance (1 / 1000000)))
              (.subtract base mean))
        .updateMask (.convolve lee (.square 1)) (.clip (.constant 1) aoi)
      let diff : EEImage := .abs (.subtract (composite start2 end2) (composite start1 end1))
      ([], (some (composite start1 end1), some (composite start2 end2), some diff,
            some (.gt diff (1 / 10))))) := rfl

/-- C2: for any well-formed "lat, lon" string (two comma-separated tokens
that both parse as floats), the form-submission parse yields exactly the
two floats in the order (center_lat, center_lon), and the rendered map of
a successful submission is centered at (center_lat, center_lon). -/
theorem gglmfao_parse_coordinates_order (s : String) (t1 t2 : List Char) (x y : ℚ)
    (hsplit : splitOnComma s.data = [t1, t2])
    (h1 : pyFloatChars t1 = some x) (h2 : pyFloatChars t2 = some y) :
    parseCoords s = .ok (x, y) ∧
    ∀ r d1 d2 d3 d4,
      (Gglmfao.handleSubmit none r s d1 d2 d3 d4).map (fun p => p.2.map RenderedMap.location) =
        .ok (some (x, y)) := by
  have hne : s ≠ "" := by
    intro h
    subst h
    rw [show ("" : String).data = ([] : List Char) from rfl] at hsplit
    simp [splitOnComma] at hsplit
  have hparse : parseCoords s = .ok (x, y) := by
    simp [parseCoords, hsplit, h1, h2]
  refine ⟨hparse, ?_⟩
  intro r d1 d2 d3 d4
  simp only [Gglmfao.handleSubmit]
  rw [if_neg hne, hparse]
  rfl

/-- Witness for C2: the spec's example "20.0, 77.0" yields
center_lat = 20 and center_lon = 77, and the result map of that
submission is centered at (20, 77). -/
theorem gglmfao_parse_coordinates_order_witness :
    parseCoords "20.0, 77.0" = .ok (20, 77) ∧
    (Gglmfao.handleSubmit none 10 "20.0, 77.0" "2023-01-01" "2023-01-15" "2023-07-01"
        "2023-07-15").map (fun p => p.2.map RenderedMap.location) = .ok (some (20, 77)) := by
  have h := gglmfao_parse_coordinates_order "20.0, 77.0"
    ['2', '0', '.', '0'] [' ', '7', '7', '.', '0'] 20 77
    (by decide)
    (by rw [show pyFloatChars ['2', '0', '.', '0'] =
          some (((20 : ℕ) : ℚ) + ((0 : ℕ) : ℚ) / (10 : ℚ) ^ 1) from rfl]
        norm_num)
    (by rw [show pyFloatChars [' ', '7', '7', '.', '0'] =
          some (((77 : ℕ) : ℚ) + ((0 : ℕ) : ℚ) / (10 : ℚ) ^ 1) from rfl]
        norm_num)
  exact ⟨h.1, h.2 10 "2023-01-01" "2023-01-15" "2023-07-01" "2023-07-15"⟩

/-- C3: an exception raised inside `process_images` is caught at its
boundary: gglmfao.py surfaces a user-facing `st.error` message while
testing.py only prints to the console; both return the 4-tuple of Nones,
and the callers' None-guards render no tile layers, outline layer or
result map for that submission. -/
theorem process_images_failure_caught_and_guarded
    (e : String) (aoi : EEGeometry) (start1 end1 start2 end2 : String)
    (r cl cn : ℚ) (c : Option EEImage) (s : String) (x y : ℚ)
    (hs : parseCoords s = .ok (x, y)) :
    Gglmfao.process_images (some e) aoi start1 end1 start2 end2 =
      ([.stError ("Error processing images: " ++ e)], (none, none, none, none)) ∧
    Testing.process_images (some e) aoi =
      ([.consolePrint ("Error processing images: " ++ e)], (none, none, none, none)) ∧
    Gglmfao.handleSubmit (some e) r s start1 end1 start2 end2 =
      .ok ([.stError ("Error processing images: " ++ e)], none) ∧
    Testing.build_updated_map cl cn aoi none none none c = none := by
  have hne : s ≠ "" := by
    intro h
    subst h
    rw [show parseCoords "" =
      .error (.valueError "unpacking requires exactly two values") from rfl] at hs
    exact Except.noConfusion hs
  refine ⟨rfl, rfl, ?_, rfl⟩
  simp only [Gglmfao.handleSubmit]
  rw [if_neg hne, hs]
  rfl

/-- Witness for C3 at a concrete failing submission. -/
theorem process_images_failure_caught_and_guarded_witness :
    Gglmfao.process_images (some "boom") (.point [0, 0]) "a" "b" "c" "d" =
      ([.stError "Error processing images: boom"], (none, none, none, none)) ∧
    Testing.process_images (some "boom") (.point [0, 0]) =
      ([.consolePrint "Error processing images: boom"], (none, none, none, none)) ∧
    Gglmfao.handleSubmit (some "boom") 10 "20, 77" "a" "b" "c" "d" =
      .ok ([.stError "Error processing images: boom"], none) ∧
    Testing.build_updated_map 20 77 (.point [0, 0]) none none none none = none := by
  have h := process_images_failure_caught_and_guarded "boom" (.point [0, 0]) "a" "b" "c" "d"
    10 20 77 none "20, 77" 20 77 rfl
  exact h

/-- C4: `get_buffered_aoi` in both variants converts the radius from
kilometers to meters by exact multiplication by 1000 before handing it to
the buffer constructor; radius_km = 10 yields exactly 10000 meters. -/
theorem get_buffered_aoi_km_to_meters :
    (∀ lon lat r, Gglmfao.get_buffered_aoi lon lat r = .buffer (.point [lon, lat]) (r * 1000)) ∧
    (∀ lon lat r, Testing.get_buffered_aoi lon lat r = .buffer (.point [lon, lat]) (r * 1000)) ∧
    bufferDistance (Gglmfao.get_buffered_aoi 77 20 10) = some 10000 ∧
    bufferDistance (Testing.get_buffered_aoi 77 20 10) = some 10000 := by
  refine ⟨fun _ _ _ => rfl, fun _ _ _ => rfl, ?_, ?_⟩ <;>
    · show some ((10 : ℚ) * 1000) = some 10000
      norm_num

set_option maxRecDepth 100000 in
/-- C5: in the demo scenario of testing.py (fixed center (20.0, 77.0),
radius 10 km, date ranges 2023-01-01..15 and 2023-07-01..15) the pipeline
describes exactly two collection queries, one per date range, and the
updated map is built with exactly three named overlay tile layers plus
one GeoJSON outline of the AOI; however executing the script raises
`NameError` at the entry-point guard, so no exception-free rendering ever
happens (see also the `repr_html` failure in `Testing.main`). -/
theorem testing_demo_scenario_queries_layers_and_crash :
    pipelineQueries (Testing.process_images_body (Testing.get_buffered_aoi 77 20 10)) =
      [⟨"COPERNICUS/S1_GRD", "2023-01-01", "2023-01-15"⟩,
       ⟨"COPERNICUS/S1_GRD", "2023-07-01", "2023-07-15"⟩] ∧
    (∀ i1 i2 d c,
      (Testing.build_updated_map 20 77 (Testing.get_buffered_aoi 77 20 10)
          (some i1) (some i2) (some d) c).map
        (fun m => (m.tileLayers.map TileLayer.layerName,
                   m.geoJsonLayers.map GeoJsonLayer.feature)) =
        some (["Sentinel-1 Image 1 (Filtered & Boxcar)",
               "Sentinel-1 Image 2 (Filtered & Boxcar)",
               "Difference Image"],
              [Testing.get_buffered_aoi 77 20 10])) ∧
    (∀ exc r sub, Testing.runScript exc r sub = .error (.nameError "_name_")) :=
  ⟨by decide, fun _ _ _ _ => rfl, fun _ _ _ => rfl⟩

/-- C6: a malformed form submission in gglmfao.py is never corrected or
retried: an empty coordinate string is a silent no-op (no effects, no
rendering), and a non-empty string that fails the coordinate parse
raises an uncaught exception outside the `process_images` handler. -/
theorem gglmfao_malformed_submission_throws_or_noops
    (exc : Option String) (r : ℚ) (s : String) (d1 d2 d3 d4 : String) (e : PyError)
    (hne : s ≠ "") (hbad : parseCoords s = .error e) :
    Gglmfao.handleSubmit exc r "" d1 d2 d3 d4 = .ok ([], none) ∧
    Gglmfao.handleSubmit exc r s d1 d2 d3 d4 = .error e := by
  refine ⟨rfl, ?_⟩
  simp only [Gglmfao.handleSubmit]
  rw [if_neg hne, hbad]

/-- Witness for C6: the empty string no-ops and "abc" raises. -/
theorem gglmfao_malformed_submission_throws_or_noops_witness :
    Gglmfao.handleSubmit none 10 "" "a" "b" "c" "d" = .ok ([], none) ∧
    Gglmfao.handleSubmit none 10 "abc" "a" "b" "c" "d" =
      .error (.valueError "unpacking requires exactly two values") :=
  gglmfao_malformed_submission_throws_or_noops none 10 "abc" "a" "b" "c" "d"
    (.valueError "unpacking requires exactly two values") (by decide) rfl

/-- C7: the visualization stretches and the change threshold are fixed
literals on every successful submission: both composites are displayed
with min = -25, max = 0, the difference image with min = 0, max = 10, and
the change mask is the difference thresholded at 0.1. -/
theorem gglmfao_fixed_threshold_and_stretch :
    (∀ exc aoi s1 e1 s2 e2,
      (Gglmfao.process_images exc aoi s1 e1 s2 e2).2.2.2.2 =
        (Gglmfao.process_images exc aoi s1 e1 s2 e2).2.2.2.1.map (fun d => .gt d (1 / 10))) ∧
    (∀ cl cn aoi i1 i2 d c,
      Gglmfao.render_results cl cn aoi (some i1) (some i2) (some d) c =
        some ⟨(cl, cn), 10,
          [⟨i1, -25, 0, "Map data © Google", true, "Image 1 (Filtered & Boxcar)"⟩,
           ⟨i2, -25, 0, "Map data © Google", true, "Image 2 (Filtered & Boxcar)"⟩,
           ⟨d, 0, 10, "Map data © Google", true, "Difference Image"⟩],
          [⟨aoi⟩]⟩) :=
  ⟨fun exc _ _ _ _ _ => by cases exc <;> rfl, fun _ _ _ _ _ _ _ => rfl⟩

/-- C8: the two variants implement the same processing flow: on any AOI,
gglmfao.py's `process_images` with the date arguments 2023-01-01,
2023-01-15, 2023-07-01, 2023-07-15 builds the same expression pipeline as
testing.py's `process_images`, and the returned 4-tuples agree whether or
not the remote client raises (only the error-reporting effect differs). -/
theorem variants_build_identical_pipeline :
    (∀ aoi, Gglmfao.process_images none aoi "2023-01-01" "2023-01-15" "2023-07-01" "2023-07-15" =
      Testing.process_images none aoi) ∧
    (∀ aoi exc,
      (Gglmfao.process_images exc aoi "2023-01-01" "2023-01-15" "2023-07-01" "2023-07-15").2 =
        (Testing.process_images exc aoi).2) :=
  ⟨fun _ => rfl, fun _ exc => by cases exc <;> rfl⟩

/-- C9: the binary change mask (the fourth element returned by
`process_images`) is never rendered: the result map of a successful
submission carries tile layers exactly for the two composites and the
difference image, and the rendered output is independent of the value of
`changes` in both variants. -/
theorem changes_mask_never_rendered :
    (∀ cl cn aoi i1 i2 d c c',
      Gglmfao.render_results cl cn aoi i1 i2 d c =
        Gglmfao.render_results cl cn aoi i1 i2 d c') ∧
    (∀ cl cn aoi i1 i2 d c,
      (Gglmfao.render_results cl cn aoi (some i1) (some i2) (some d) c).map
        (fun m => m.tileLayers.map TileLayer.tilesOf) = some [i1, i2, d]) ∧
    (∀ cl cn aoi i1 i2 d c c',
      Testing.build_updated_map cl cn aoi i1 i2 d c =
        Testing.build_updated_map cl cn aoi i1 i2 d c') :=
  ⟨fun _ _ _ _ _ _ _ _ => rfl, fun _ _ _ _ _ _ _ => rfl, fun _ _ _ _ _ _ _ _ => rfl⟩

/-- C10: the second variant can never render a result: the entry-point
guard of testing.py reads the undefined name `_name_`, so executing the
script raises `NameError` before `main` is invoked; and `main` itself
calls `repr_html()` on the map widget (which only defines `_repr_html_`),
so even a direct call fails with `AttributeError` before any form is
shown. -/
theorem testing_variant_never_renders :
    (∀ exc r sub, Testing.runScript exc r sub = .error (.nameError "_name_")) ∧
    (∀ exc r sub, Testing.main exc r sub = .error (.attributeError "repr_html")) :=
  ⟨fun _ _ _ => rfl, fun _ _ _ => rfl⟩
